import Mathlib

/-!
Verification of the edge-tts streaming TTS client, a shallow embedding of
`src/lib/generate.ts` (WebSocket session: frame demultiplexing, audio
reassembly, Content-Length accounting, single settlement of the deferred
result) and `src/lib/connect.ts` (channel establishment and the one-shot
speech configuration message).

Modelling conventions:
* Wire data (frame contents, header text) is a `List Nat` of bytes.  The
  source decodes binary frames with `TextDecoder` and searches the decoded
  string; protocol headers are ASCII, where character indices and byte
  indices coincide, so the search is modelled directly on the bytes.
* `JSON.parse` of a metadata frame lives in the JavaScript runtime, not in
  this repository; it is an explicit parameter `parse : List Nat → Option
  (List Nat)` of the step function (`none` models a thrown SyntaxError).
  `parseSubtitle` is imported from `src/lib/subtitle.ts` and is likewise
  external; the model records the ordered metadata list that the source
  passes to it, which is what the verified properties are about.
* The deferred result created with `Promise.withResolvers` settles at most
  once: `resolve`/`reject` on an already settled promise is a no-op on the
  stored result.  `trySettle` encodes exactly that.
* Each event handler of the source runs to completion here.  The `await`
  inside `dealRawAudioChunks` (Blob → bytes materialisation) cannot fail
  and does not change which frames the drain processes for the traces the
  claims quantify over (all frames precede the termination frame).
-/

namespace EdgeTTS

/-- Bytes of the binary-frame separator literal `"Path:audio\r\n"`
(`generate.ts` line 144). -/
def audioSeparator : List Nat :=
  [80, 97, 116, 104, 58, 97, 117, 100, 105, 111, 13, 10]

/-- Bytes of the metadata marker literal `"Path:audio.metadata"`
(`generate.ts` line 185). -/
def metadataMarker : List Nat :=
  [80, 97, 116, 104, 58, 97, 117, 100, 105, 111, 46, 109, 101, 116, 97,
   100, 97, 116, 97]

/-- Bytes of the termination marker literal `"Path:turn.end"`
(`generate.ts` line 192). -/
def turnEndMarker : List Nat :=
  [80, 97, 116, 104, 58, 116, 117, 114, 110, 46, 101, 110, 100]

/-- Bytes of the literal `"Content-Length: "`, the fixed part of the
regular expression `/Content-Length: (\d+)/i` (`generate.ts` line 148). -/
def clPattern : List Nat :=
  [67, 111, 110, 116, 101, 110, 116, 45, 76, 101, 110, 103, 116, 104, 58, 32]

/-- Index of the first occurrence of `pat` as a contiguous segment of the
haystack, mirroring JavaScript `indexOf` (ASCII headers: character index =
byte index).  `none` mirrors an `indexOf` result of `-1`. -/
def findSubseq (pat : List Nat) : List Nat → Option Nat
  | [] => if pat.isPrefixOf ([] : List Nat) then some 0 else none
  | a :: t =>
    if pat.isPrefixOf (a :: t) then some 0
    else (findSubseq pat t).map (· + 1)

/-- Mirrors JavaScript `String.prototype.includes`. -/
def hasSubseq (pat hay : List Nat) : Bool := (findSubseq pat hay).isSome

/-- Everything of `l` strictly before the first occurrence of `pat`
(all of `l` when `pat` does not occur): the second piece produced by
`String.prototype.split` ends at the next occurrence of the separator. -/
def takeUntilSubseq (pat l : List Nat) : List Nat :=
  match findSubseq pat l with
  | some j => l.take j
  | none => l

/-- ASCII whitespace bytes removed by `String.prototype.trim` (the source
only ever trims ASCII payloads). -/
def isWsByte (b : Nat) : Bool :=
  b == 9 || b == 10 || b == 11 || b == 12 || b == 13 || b == 32

/-- Mirrors `String.prototype.trim` on ASCII data. -/
def trimAscii (l : List Nat) : List Nat :=
  ((l.dropWhile isWsByte).reverse.dropWhile isWsByte).reverse

/-- The JSON payload text of a metadata frame:
`message.data.split("Path:audio.metadata")[1].trim()`
(`generate.ts` line 186). -/
def extractMetaPayload (d : List Nat) : List Nat :=
  match findSubseq metadataMarker d with
  | some i =>
    trimAscii (takeUntilSubseq metadataMarker (d.drop (i + metadataMarker.length)))
  | none => []

/-- ASCII lower-casing of one byte, used to model the `/i` flag of the
`Content-Length` regular expression. -/
def toLowerByte (b : Nat) : Nat := if 65 ≤ b ∧ b ≤ 90 then b + 32 else b

/-- Case-insensitive "starts with" on bytes. -/
def ciPrefixOf (pat hay : List Nat) : Bool :=
  (pat.map toLowerByte).isPrefixOf (hay.map toLowerByte)

/-- ASCII decimal digit test, the `\d` character class. -/
def isDigit (b : Nat) : Bool := decide (48 ≤ b) && decide (b ≤ 57)

/-- Decimal value of a digit run, mirroring `parseInt(match, 10)`. -/
def digitsToNat (ds : List Nat) : Nat :=
  ds.foldl (fun acc b => acc * 10 + (b - 48)) 0

/-- First match of `/Content-Length: (\d+)/i` in the header text: the
earliest position where the literal matches case-insensitively and is
followed by at least one digit; the captured group is the maximal digit
run there (`generate.ts` line 148). -/
def findContentLength : List Nat → Option Nat
  | [] => none
  | a :: t =>
    if ciPrefixOf clPattern (a :: t) then
      if (((a :: t).drop clPattern.length).takeWhile isDigit).isEmpty then
        findContentLength t
      else some (digitsToNat (((a :: t).drop clPattern.length).takeWhile isDigit))
    else findContentLength t

/-- The distinct failure values the session can reject with
(`generate.ts` lines 134, 160-164, 173, 200-204, 218). -/
inductive SessionError
  | connectionTimeout
  | unexpectedClose (code : Nat) (reason : List Nat)
  | transportError
  | malformedMetadata
  | incompleteAudio (got expected : Nat)
deriving DecidableEq

/-- A settlement of the deferred `GenerateResult`: `success` carries the
reassembled audio bytes (`new Blob(audioChunks)` concatenates its parts)
and the ordered metadata list handed to the external `parseSubtitle`. -/
inductive Outcome
  | success (audio : List Nat) (metadata : List (List Nat))
  | failure (e : SessionError)
deriving DecidableEq

/-- The mutable session state of one `generate` call after `connect`
resolved: the local arrays and flags of `generate.ts` lines 123-129,
plus the settlement slot of the deferred result, whether the 30-second
deadline timer is still pending, and whether the channel is still open. -/
structure SessionState where
  audioChunks : List (List Nat)
  subtitleChunks : List (List Nat)
  rawAudioChunks : List (List Nat)
  isAudioComplete : Bool
  expectedLength : Nat
  settled : Option Outcome
  timerArmed : Bool
  socketOpen : Bool
deriving DecidableEq

/-- State right after `generate` has connected, installed its listeners
and armed the 30-second timer (`generate.ts` lines 123-135). -/
def initState : SessionState :=
  { audioChunks := [], subtitleChunks := [], rawAudioChunks := [],
    isAudioComplete := false, expectedLength := 0,
    settled := none, timerArmed := true, socketOpen := true }

/-- Semantics of `resolve` / `reject` of `Promise.withResolvers`: the first settlement
wins, later attempts leave the stored result unchanged. -/
def trySettle (s : SessionState) (o : Outcome) : SessionState :=
  match s.settled with
  | some _ => s
  | none => { s with settled := some o }

/-- One iteration of the `while` loop of `dealRawAudioChunks`
(`generate.ts` lines 139-154): decode the frame, look for the
`"Path:audio\r\n"` separator; when present, add any `Content-Length`
of the header text to `expectedLength` and append the bytes after the
separator to `audioChunks`; when absent, the frame is dropped.
(The `if (!data) continue` guard never fires: a `Blob` is never falsy.) -/
def processBinaryChunk (s : SessionState) (b : List Nat) : SessionState :=
  match findSubseq audioSeparator b with
  | some i =>
    let s1 :=
      match findContentLength (b.take i) with
      | some n => { s with expectedLength := s.expectedLength + n }
      | none => s
    { s1 with audioChunks := s1.audioChunks ++ [b.drop (i + audioSeparator.length)] }
  | none => s

/-- The drain loop `dealRawAudioChunks` (`generate.ts` lines 137-156): shift frames off
the queue in arrival order until it is empty, processing each. -/
def drain (s : SessionState) : SessionState :=
  s.rawAudioChunks.foldl processBinaryChunk { s with rawAudioChunks := [] }

/-- The `Path:turn.end` branch after the queue has been drained
(`generate.ts` lines 194-214): length validation, then either reject
with the incomplete-audio error (leaving timer and socket untouched)
or mark completion, clear the timer, resolve with the concatenated
audio and the collected metadata, and close the socket. -/
def turnEndFinalize (s1 : SessionState) : SessionState :=
  if 0 < s1.expectedLength ∧ (s1.audioChunks.map List.length).sum < s1.expectedLength then
    trySettle s1
      (.failure (.incompleteAudio ((s1.audioChunks.map List.length).sum) s1.expectedLength))
  else
    { trySettle { s1 with isAudioComplete := true, timerArmed := false }
        (.success s1.audioChunks.flatten s1.subtitleChunks) with
      socketOpen := false }

/-- The `message` listener on a textual frame (`generate.ts` lines
179-219): the metadata branch appends the parsed payload or, when
`JSON.parse` throws, falls to the `catch` which clears the timer and
rejects; the `turn.end` branch drains and finalizes; other textual
frames are ignored. -/
def onTextMessage (parse : List Nat → Option (List Nat))
    (s : SessionState) (d : List Nat) : SessionState :=
  if hasSubseq metadataMarker d then
    match parse (extractMetaPayload d) with
    | some md => { s with subtitleChunks := s.subtitleChunks ++ [md] }
    | none => trySettle { s with timerArmed := false } (.failure .malformedMetadata)
  else if hasSubseq turnEndMarker d then
    turnEndFinalize (drain s)
  else s

/-- The `message` listener on a binary frame (`generate.ts` lines
180-183): push it on the raw queue for deferred processing. -/
def onBinaryMessage (s : SessionState) (b : List Nat) : SessionState :=
  { s with rawAudioChunks := s.rawAudioChunks ++ [b] }

/-- The `close` listener (`generate.ts` lines 158-167): reject with the
unexpected-close error unless audio completed, then clear the timer.
The channel is closed once its close event fires. -/
def onClose (s : SessionState) (code : Nat) (reason : List Nat) : SessionState :=
  let s1 :=
    if s.isAudioComplete then s
    else trySettle s (.failure (.unexpectedClose code reason))
  { s1 with timerArmed := false, socketOpen := false }

/-- The `error` listener (`generate.ts` lines 171-174): clear the timer
and reject with the transport error.  The socket is not closed here. -/
def onError (s : SessionState) : SessionState :=
  trySettle { s with timerArmed := false } (.failure .transportError)

/-- The 30-second deadline callback (`generate.ts` lines 132-135): a
cleared timer never fires; a pending one closes the socket and rejects. -/
def onTimeout (s : SessionState) : SessionState :=
  if s.timerArmed then
    trySettle { s with timerArmed := false, socketOpen := false }
      (.failure .connectionTimeout)
  else s

/-- The observable events a running session reacts to. -/
inductive Event
  | binaryFrame (bytes : List Nat)
  | textFrame (data : List Nat)
  | closeEvt (code : Nat) (reason : List Nat)
  | errorEvt
  | timerFire
deriving DecidableEq

/-- Dispatch of one event to the listener the source installs for it. -/
def step (parse : List Nat → Option (List Nat)) (s : SessionState) :
    Event → SessionState
  | .binaryFrame b => onBinaryMessage s b
  | .textFrame d => onTextMessage parse s d
  | .closeEvt code reason => onClose s code reason
  | .errorEvt => onError s
  | .timerFire => onTimeout s

/-- A whole session: the events delivered in order to a start state. -/
def run (parse : List Nat → Option (List Nat)) (s : SessionState)
    (evts : List Event) : SessionState :=
  evts.foldl (step parse) s

/-- Payload section of a binary frame: the bytes after the separator,
when the separator occurs. -/
def payloadOf (b : List Nat) : Option (List Nat) :=
  (findSubseq audioSeparator b).map (fun i => b.drop (i + audioSeparator.length))

/-- Declared length contribution of a binary frame: its parsed
`Content-Length` when the separator occurs and the header carries the
field, `0` otherwise. -/
def clOf (b : List Nat) : Nat :=
  match findSubseq audioSeparator b with
  | some i => (findContentLength (b.take i)).getD 0
  | none => 0

/-- The binary frames of an event list, in arrival order. -/
def binFrames (evts : List Event) : List (List Nat) :=
  evts.filterMap fun e =>
    match e with
    | .binaryFrame b => some b
    | _ => none

/-- The successfully parsed metadata payloads of an event list, in
arrival order. -/
def mdPayloads (parse : List Nat → Option (List Nat)) (evts : List Event) :
    List (List Nat) :=
  evts.filterMap fun e =>
    match e with
    | .textFrame d =>
      if hasSubseq metadataMarker d then parse (extractMetaPayload d) else none
    | _ => none

/-- Payload sections of the binary frames of an event list, in arrival
order. -/
def payloadSections (evts : List Event) : List (List Nat) :=
  (binFrames evts).filterMap payloadOf

/-- Total declared `Content-Length` across the binary frames of an event
list. -/
def declaredTotal (evts : List Event) : Nat :=
  ((binFrames evts).map clOf).sum

/-- A concrete metadata parser accepting every payload, for witnesses. -/
def idParse : List Nat → Option (List Nat) := fun b => some b

/-- A concrete metadata parser rejecting every payload, for witnesses. -/
def noneParse : List Nat → Option (List Nat) := fun _ => none

/-- A binary frame declaring `Content-Length: 10` but carrying only the
four payload bytes `[1, 2, 3, 4]` after the separator. -/
def shortFrame : List Nat :=
  clPattern ++ [49, 48, 13, 10] ++ audioSeparator ++ [1, 2, 3, 4]

theorem run_nil (parse : List Nat → Option (List Nat)) (s : SessionState) :
    run parse s [] = s := rfl

theorem run_cons (parse : List Nat → Option (List Nat)) (s : SessionState)
    (e : Event) (evts : List Event) :
    run parse s (e :: evts) = run parse (step parse s e) evts := rfl

theorem run_append (parse : List Nat → Option (List Nat)) (s : SessionState)
    (a b : List Event) :
    run parse s (a ++ b) = run parse (run parse s a) b := by
  simp [run, List.foldl_append]

theorem trySettle_some (s : SessionState) (o o' : Outcome)
    (h : s.settled = some o) : trySettle s o' = s := by
  simp [trySettle, h]

theorem trySettle_none (s : SessionState) (o' : Outcome)
    (h : s.settled = none) : trySettle s o' = { s with settled := some o' } := by
  simp [trySettle, h]

theorem processBinaryChunk_eq (s : SessionState) (b : List Nat) :
    processBinaryChunk s b =
      { s with audioChunks := s.audioChunks ++ (payloadOf b).toList,
               expectedLength := s.expectedLength + clOf b } := by
  unfold processBinaryChunk payloadOf clOf
  cases h : findSubseq audioSeparator b with
  | none => simp
  | some i =>
    cases h2 : findContentLength (b.take i) with
    | none => simp [h2]
    | some n => simp [h2]

theorem foldl_processBinaryChunk (q : List (List Nat)) (s : SessionState) :
    q.foldl processBinaryChunk s =
      { s with audioChunks := s.audioChunks ++ q.filterMap payloadOf,
               expectedLength := s.expectedLength + (q.map clOf).sum } := by
  induction q generalizing s with
  | nil => simp
  | cons a q ih =>
    rw [List.foldl_cons, processBinaryChunk_eq, ih]
    cases hp : payloadOf a with
    | none =>
      simp [List.filterMap_cons, hp, List.append_assoc, Nat.add_assoc]
    | some p =>
      simp [List.filterMap_cons, hp, List.append_assoc, Nat.add_assoc]

theorem drain_eq (s : SessionState) :
    drain s =
      { s with rawAudioChunks := [],
               audioChunks := s.audioChunks ++ s.rawAudioChunks.filterMap payloadOf,
               expectedLength := s.expectedLength + (s.rawAudioChunks.map clOf).sum } := by
  unfold drain
  rw [foldl_processBinaryChunk]

theorem turnEndFinalize_settled_some (s1 : SessionState) (o : Outcome)
    (h : s1.settled = some o) : (turnEndFinalize s1).settled = some o := by
  unfold turnEndFinalize
  split
  · rw [trySettle_some _ o _ h]
    exact h
  · rw [trySettle_some ({ s1 with isAudioComplete := true, timerArmed := false }) o _ h]
    exact h

theorem step_settled_some (parse : List Nat → Option (List Nat))
    (s : SessionState) (e : Event) (o : Outcome)
    (h : s.settled = some o) : (step parse s e).settled = some o := by
  cases e with
  | binaryFrame b => exact h
  | textFrame d =>
    show (onTextMessage parse s d).settled = some o
    unfold onTextMessage
    split
    · cases parse (extractMetaPayload d) with
      | some md => exact h
      | none =>
        simp only []
        rw [trySettle_some ({ s with timerArmed := false }) o _ h]
        exact h
    · split
      · apply turnEndFinalize_settled_some
        rw [drain_eq]
        exact h
      · exact h
  | closeEvt code reason =>
    show (onClose s code reason).settled = some o
    unfold onClose
    split
    · exact h
    · rw [trySettle_some s o _ h]
      exact h
  | errorEvt =>
    show (onError s).settled = some o
    unfold onError
    rw [trySettle_some ({ s with timerArmed := false }) o _ h]
    exact h
  | timerFire =>
    show (onTimeout s).settled = some o
    unfold onTimeout
    split
    · rw [trySettle_some ({ s with timerArmed := false, socketOpen := false }) o _ h]
      exact h
    · exact h

theorem run_settled_some (parse : List Nat → Option (List Nat))
    (s : SessionState) (evts : List Event) (o : Outcome)
    (h : s.settled = some o) : (run parse s evts).settled = some o := by
  induction evts generalizing s with
  | nil => exact h
  | cons e es ih =>
    rw [run_cons]
    exact ih _ (step_settled_some parse s e o h)

theorem turn_end_step (parse : List Nat → Option (List Nat))
    (s : SessionState) (td : List Nat)
    (h1 : hasSubseq metadataMarker td = false)
    (h2 : hasSubseq turnEndMarker td = true) :
    step parse s (Event.textFrame td) = turnEndFinalize (drain s) := by
  show onTextMessage parse s td = _
  simp [onTextMessage, h1, h2]

theorem turnEndFinalize_success (s1 : SessionState)
    (hs : s1.settled = none)
    (hv : s1.expectedLength = 0 ∨
      s1.expectedLength ≤ (s1.audioChunks.map List.length).sum) :
    (turnEndFinalize s1).settled =
      some (.success s1.audioChunks.flatten s1.subtitleChunks) := by
  unfold turnEndFinalize
  have hc : ¬(0 < s1.expectedLength ∧
      (s1.audioChunks.map List.length).sum < s1.expectedLength) := by
    rcases hv with h | h <;> omega
  rw [if_neg hc]
  have hs2 : ({ s1 with isAudioComplete := true, timerArmed := false } :
      SessionState).settled = none := hs
  rw [trySettle_none _ _ hs2]

theorem turnEndFinalize_incomplete (s1 : SessionState)
    (hs : s1.settled = none)
    (hv : 0 < s1.expectedLength ∧
      (s1.audioChunks.map List.length).sum < s1.expectedLength) :
    (turnEndFinalize s1).settled =
      some (.failure (.incompleteAudio ((s1.audioChunks.map List.length).sum)
        s1.expectedLength)) := by
  unfold turnEndFinalize
  rw [if_pos hv, trySettle_none _ _ hs]

theorem run_stream (parse : List Nat → Option (List Nat)) (evts : List Event)
    (s : SessionState)
    (hok : ∀ e ∈ evts, (∃ b, e = Event.binaryFrame b) ∨
      (∃ d m, e = Event.textFrame d ∧ hasSubseq metadataMarker d = true ∧
        parse (extractMetaPayload d) = some m)) :
    run parse s evts =
      { s with rawAudioChunks := s.rawAudioChunks ++ binFrames evts,
               subtitleChunks := s.subtitleChunks ++ mdPayloads parse evts } := by
  induction evts generalizing s with
  | nil => simp [run_nil, binFrames, mdPayloads]
  | cons e es ih =>
    have he := hok e (List.mem_cons_self e es)
    have hok2 := fun e₂ (h₂ : e₂ ∈ es) => hok e₂ (List.mem_cons_of_mem e h₂)
    rcases he with ⟨b, rfl⟩ | ⟨d, m, rfl, hmd, hp⟩
    · rw [run_cons]
      have hstep : step parse s (Event.binaryFrame b) =
          { s with rawAudioChunks := s.rawAudioChunks ++ [b] } := rfl
      rw [hstep, ih _ hok2]
      simp [binFrames, mdPayloads, List.filterMap_cons, List.append_assoc]
    · rw [run_cons]
      have hstep : step parse s (Event.textFrame d) =
          { s with subtitleChunks := s.subtitleChunks ++ [m] } := by
        show onTextMessage parse s d = _
        simp [onTextMessage, hmd, hp]
      rw [hstep, ih _ hok2]
      simp [binFrames, mdPayloads, List.filterMap_cons, hmd, hp, List.append_assoc]

/-- C1: once the deferred result of a session run by `generate` has been
settled, every later frame, close, error or timer event leaves the
settled result unchanged; in particular a close or error event arriving
after a termination frame resolved the session does not change the
resolved result. -/
theorem settlement_is_final (parse : List Nat → Option (List Nat))
    (pre post : List Event) (o : Outcome)
    (h : (run parse initState pre).settled = some o) :
    (run parse initState (pre ++ post)).settled = some o := by
  rw [run_append]
  exact run_settled_some parse _ post o h

/-- Witness for C1: a successful termination frame resolves the session
with the empty audio result, and a subsequent close event and error
event leave the resolved result unchanged. -/
theorem settlement_is_final_witness :
    (run idParse initState ([Event.textFrame turnEndMarker] ++
        [Event.closeEvt 1006 [], Event.errorEvt])).settled =
      some (Outcome.success [] []) :=
  settlement_is_final idParse [Event.textFrame turnEndMarker]
    [Event.closeEvt 1006 [], Event.errorEvt] (Outcome.success [] []) (by decide)

/-- C2: for any interleaving of binary frames (each containing the
separator) and metadata frames (each parsing successfully) followed by
one termination frame, the session resolves with the concatenation of
the binary frames' payload sections in arrival order as the audio and
with the parsed metadata frames in arrival order as the metadata list
handed to the cue-construction function, independent of how the two
kinds were interleaved. -/
theorem interleaving_result (parse : List Nat → Option (List Nat))
    (evts : List Event) (td : List Nat)
    (hok : ∀ e ∈ evts,
      (∃ b, e = Event.binaryFrame b ∧ (findSubseq audioSeparator b).isSome = true) ∨
      (∃ d m, e = Event.textFrame d ∧ hasSubseq metadataMarker d = true ∧
        parse (extractMetaPayload d) = some m))
    (h1 : hasSubseq metadataMarker td = false)
    (h2 : hasSubseq turnEndMarker td = true)
    (hlen : declaredTotal evts = 0 ∨
      declaredTotal evts ≤ (payloadSections evts).flatten.length) :
    (run parse initState (evts ++ [Event.textFrame td])).settled =
      some (Outcome.success (payloadSections evts).flatten (mdPayloads parse evts)) := by
  have hok2 : ∀ e ∈ evts, (∃ b, e = Event.binaryFrame b) ∨
      (∃ d m, e = Event.textFrame d ∧ hasSubseq metadataMarker d = true ∧
        parse (extractMetaPayload d) = some m) := by
    intro e he
    rcases hok e he with ⟨b, hb, _⟩ | hm
    · exact Or.inl ⟨b, hb⟩
    · exact Or.inr hm
  have hs0 : run parse initState evts =
      { audioChunks := [], subtitleChunks := mdPayloads parse evts,
        rawAudioChunks := binFrames evts, isAudioComplete := false,
        expectedLength := 0, settled := none, timerArmed := true,
        socketOpen := true } := by
    rw [run_stream parse evts initState hok2]
    simp [initState]
  rw [run_append, hs0, run_cons, run_nil, turn_end_step parse _ td h1 h2, drain_eq]
  simp only [List.nil_append, Nat.zero_add]
  have hv : declaredTotal evts = 0 ∨
      declaredTotal evts ≤ ((payloadSections evts).map List.length).sum := by
    rw [← List.length_flatten]
    exact hlen
  exact turnEndFinalize_success _ rfl hv

/-- A metadata frame: the marker followed by the payload text `" A"`. -/
def mdFrame : List Nat := metadataMarker ++ [32, 65]

/-- A well-formed binary frame declaring `Content-Length: 4` and carrying
exactly the four payload bytes `[1, 2, 3, 4]`. -/
def okFrame : List Nat := clPattern ++ [52, 13, 10] ++ audioSeparator ++ [1, 2, 3, 4]

/-- One metadata frame then one binary frame, the interleaving of the
concrete scenario of the specification. -/
def c2Trace : List Event := [Event.textFrame mdFrame, Event.binaryFrame okFrame]

/-- Witness for C2: the concrete scenario resolves with the four payload
bytes and the single parsed boundary event. -/
theorem interleaving_result_witness :
    (run idParse initState (c2Trace ++ [Event.textFrame turnEndMarker])).settled =
      some (Outcome.success [1, 2, 3, 4] [[65]]) := by
  have hok : ∀ e ∈ c2Trace,
      (∃ b, e = Event.binaryFrame b ∧ (findSubseq audioSeparator b).isSome = true) ∨
      (∃ d m, e = Event.textFrame d ∧ hasSubseq metadataMarker d = true ∧
        idParse (extractMetaPayload d) = some m) := by
    intro e he
    cases he with
    | head => exact Or.inr ⟨mdFrame, [65], rfl, by decide, by decide⟩
    | tail _ he2 =>
      cases he2 with
      | head => exact Or.inl ⟨okFrame, rfl, by decide⟩
      | tail _ he3 => cases he3
  have h := interleaving_result idParse c2Trace turnEndMarker hok
    (by decide) (by decide) (Or.inr (by decide))
  rw [h]
  decide

/-- C3: on receipt of the termination frame, if the accumulated expected
length is positive and the reassembled byte total falls short of it the
session fails with the incomplete-audio error carrying the actual and
expected counts; if the total reaches the expected length, or the
expected length is zero, the session resolves. -/
theorem turn_end_length_validation (parse : List Nat → Option (List Nat))
    (s : SessionState) (td : List Nat)
    (h1 : hasSubseq metadataMarker td = false)
    (h2 : hasSubseq turnEndMarker td = true)
    (hs : s.settled = none) :
    (0 < (drain s).expectedLength ∧
        ((drain s).audioChunks.map List.length).sum < (drain s).expectedLength →
      (step parse s (Event.textFrame td)).settled =
        some (Outcome.failure (SessionError.incompleteAudio
          (((drain s).audioChunks.map List.length).sum) (drain s).expectedLength)))
    ∧ ((drain s).expectedLength = 0 ∨
        (drain s).expectedLength ≤ ((drain s).audioChunks.map List.length).sum →
      (step parse s (Event.textFrame td)).settled =
        some (Outcome.success (drain s).audioChunks.flatten (drain s).subtitleChunks)) := by
  have hds : (drain s).settled = none := by
    rw [drain_eq]
    exact hs
  constructor
  · intro hv
    rw [turn_end_step parse s td h1 h2]
    exact turnEndFinalize_incomplete _ hds hv
  · intro hv
    rw [turn_end_step parse s td h1 h2]
    exact turnEndFinalize_success _ hds hv

/-- Witness for C3: a queued binary frame declaring ten bytes but
carrying four makes the termination frame reject with the
incomplete-audio error `(4, 10)`. -/
theorem turn_end_length_validation_witness :
    (step idParse { initState with rawAudioChunks := [shortFrame] }
        (Event.textFrame turnEndMarker)).settled =
      some (Outcome.failure (SessionError.incompleteAudio 4 10)) := by
  have h := (turn_end_length_validation idParse
      { initState with rawAudioChunks := [shortFrame] } turnEndMarker
      (by decide) (by decide) rfl).1 (by decide)
  rw [h]
  decide

/-- C4 (refuted, code bug): the claim says every terminal settlement
cancels the deadline timer and every terminal failure closes the channel.
In the source the incomplete-audio branch rejects and returns without
`clearTimeout` and without `socket.close()`: after that settlement the
30-second timer is still armed and the channel is still open.  This
theorem evaluates the session at the failing input. -/
theorem incompleteAudio_leaves_timer_armed :
    (run idParse initState
        [Event.binaryFrame shortFrame, Event.textFrame turnEndMarker]).settled =
        some (Outcome.failure (SessionError.incompleteAudio 4 10)) ∧
      (run idParse initState
        [Event.binaryFrame shortFrame, Event.textFrame turnEndMarker]).timerArmed = true ∧
      (run idParse initState
        [Event.binaryFrame shortFrame, Event.textFrame turnEndMarker]).socketOpen = true := by
  decide

/-- C5: a binary frame whose bytes lack the separator token is silently
discarded: relative to the same session without it, it contributes no
audio bytes, no expected length, and no error — the final states after
the termination frame are identical. -/
theorem missing_separator_discarded (parse : List Nat → Option (List Nat))
    (evts : List Event) (b td : List Nat)
    (hb : findSubseq audioSeparator b = none)
    (h1 : hasSubseq metadataMarker td = false)
    (h2 : hasSubseq turnEndMarker td = true) :
    run parse initState (evts ++ [Event.binaryFrame b, Event.textFrame td]) =
      run parse initState (evts ++ [Event.textFrame td]) := by
  rw [run_append, run_append]
  generalize run parse initState evts = s
  rw [run_cons, run_cons, run_nil, run_cons, run_nil]
  have hstep1 : step parse s (Event.binaryFrame b) =
      { s with rawAudioChunks := s.rawAudioChunks ++ [b] } := rfl
  rw [hstep1, turn_end_step parse _ td h1 h2, turn_end_step parse _ td h1 h2]
  congr 1
  rw [drain_eq, drain_eq]
  have hpl : payloadOf b = none := by simp [payloadOf, hb]
  have hcl : clOf b = 0 := by simp [clOf, hb]
  simp [List.filterMap_append, List.map_append, List.sum_append,
    List.filterMap_cons, List.map_cons, hpl, hcl]

/-- Witness for C5: a three-byte frame without the separator leaves the
whole session unchanged. -/
theorem missing_separator_discarded_witness :
    run idParse initState
        ([] ++ [Event.binaryFrame [1, 2, 3], Event.textFrame turnEndMarker]) =
      run idParse initState ([] ++ [Event.textFrame turnEndMarker]) :=
  missing_separator_discarded idParse [] [1, 2, 3] turnEndMarker
    (by decide) (by decide) (by decide)

theorem toLowerByte_idem (b : Nat) :
    toLowerByte (toLowerByte b) = toLowerByte b := by
  unfold toLowerByte
  split <;> first
    | omega
    | (split <;> omega)

theorem map_toLowerByte_idem (l : List Nat) :
    (l.map toLowerByte).map toLowerByte = l.map toLowerByte := by
  induction l with
  | nil => rfl
  | cons a t ih => simp [toLowerByte_idem, ih]

theorem ciPrefixOf_map_toLowerByte (pat hay : List Nat) :
    ciPrefixOf pat (hay.map toLowerByte) = ciPrefixOf pat hay := by
  unfold ciPrefixOf
  rw [map_toLowerByte_idem]

theorem isDigit_toLowerByte (b : Nat) : isDigit (toLowerByte b) = isDigit b := by
  unfold toLowerByte isDigit
  split
  · rename_i h
    have h1 : decide (b + 32 ≤ 57) = false := by
      simp only [decide_eq_false_iff_not]
      omega
    have h2 : decide (b ≤ 57) = false := by
      simp only [decide_eq_false_iff_not]
      omega
    rw [h1, h2, Bool.and_false, Bool.and_false]
  · rfl

theorem toLowerByte_of_isDigit (b : Nat) (h : isDigit b = true) :
    toLowerByte b = b := by
  unfold isDigit at h
  rw [Bool.and_eq_true, decide_eq_true_eq, decide_eq_true_eq] at h
  unfold toLowerByte
  split <;> omega

theorem takeWhile_isDigit_map (l : List Nat) :
    (l.map toLowerByte).takeWhile isDigit = l.takeWhile isDigit := by
  induction l with
  | nil => rfl
  | cons a t ih =>
    simp only [List.map_cons, List.takeWhile_cons, isDigit_toLowerByte]
    cases hd : isDigit a with
    | false => simp [hd]
    | true => simp [hd, ih, toLowerByte_of_isDigit a hd]

theorem findContentLength_map_toLowerByte (l : List Nat) :
    findContentLength (l.map toLowerByte) = findContentLength l := by
  induction l with
  | nil => rfl
  | cons a t ih =>
    show findContentLength (toLowerByte a :: t.map toLowerByte) = _
    unfold findContentLength
    have hci : ciPrefixOf clPattern (toLowerByte a :: t.map toLowerByte) =
        ciPrefixOf clPattern (a :: t) := by
      have h0 : toLowerByte a :: t.map toLowerByte = (a :: t).map toLowerByte := rfl
      rw [h0, ciPrefixOf_map_toLowerByte]
    have hds : ((toLowerByte a :: t.map toLowerByte).drop clPattern.length).takeWhile isDigit =
        ((a :: t).drop clPattern.length).takeWhile isDigit := by
      have h0 : toLowerByte a :: t.map toLowerByte = (a :: t).map toLowerByte := rfl
      rw [h0, ← List.map_drop, takeWhile_isDigit_map]
    rw [hci, hds, ih]

/-- C6: for a binary frame containing the separator, the header text
before the separator is searched for a `Content-Length` field with a
case-insensitive key match; when the field is present its integer value
is added to the running expected length, and a frame without the field
leaves the expected length unchanged. -/
theorem content_length_accumulated (s : SessionState) (b : List Nat) (i : Nat)
    (hi : findSubseq audioSeparator b = some i) :
    ((∀ n, findContentLength (b.take i) = some n →
        (processBinaryChunk s b).expectedLength = s.expectedLength + n) ∧
      (findContentLength (b.take i) = none →
        (processBinaryChunk s b).expectedLength = s.expectedLength)) ∧
      ∀ l : List Nat, findContentLength (l.map toLowerByte) = findContentLength l := by
  refine ⟨⟨?_, ?_⟩, findContentLength_map_toLowerByte⟩
  · intro n hn
    simp [processBinaryChunk, hi, hn]
  · intro hn
    simp [processBinaryChunk, hi, hn]

/-- Witness for C6: the short frame declares `Content-Length: 10`, which
is added to the expected length. -/
theorem content_length_accumulated_witness :
    (processBinaryChunk initState shortFrame).expectedLength =
      initState.expectedLength + 10 :=
  (content_length_accumulated initState shortFrame 20 (by decide)).1.1 10 (by decide)

/-- C7: a textual frame carrying the metadata marker whose JSON payload
fails to parse settles the whole session as failed with the
malformed-metadata error: the deferred result is rejected, nothing is
appended to the metadata list, and the timer is cleared by the catch. -/
theorem malformed_metadata_rejects (parse : List Nat → Option (List Nat))
    (s : SessionState) (d : List Nat)
    (hmd : hasSubseq metadataMarker d = true)
    (hp : parse (extractMetaPayload d) = none)
    (hs : s.settled = none) :
    (step parse s (Event.textFrame d)).settled =
        some (Outcome.failure SessionError.malformedMetadata) ∧
      (step parse s (Event.textFrame d)).subtitleChunks = s.subtitleChunks := by
  have hstep : step parse s (Event.textFrame d) =
      trySettle { s with timerArmed := false }
        (.failure .malformedMetadata) := by
    show onTextMessage parse s d = _
    simp [onTextMessage, hmd, hp]
  have hs2 : ({ s with timerArmed := false } : SessionState).settled = none := hs
  rw [hstep, trySettle_none _ _ hs2]
  exact ⟨rfl, rfl⟩

/-- Witness for C7: a bare metadata-marker frame with a parser rejecting
every payload rejects the session with the malformed-metadata error. -/
theorem malformed_metadata_rejects_witness :
    (step noneParse initState (Event.textFrame metadataMarker)).settled =
      some (Outcome.failure SessionError.malformedMetadata) :=
  (malformed_metadata_rejects noneParse initState metadataMarker
    (by decide) rfl rfl).1

/-- C8: a close event while the session has not completed (and the
deferred result is still pending) settles the session as failed with the
unexpected-close error carrying code and reason; a close event after
successful completion changes nothing about the settled result. -/
theorem close_before_completion (parse : List Nat → Option (List Nat))
    (s : SessionState) (code : Nat) (reason : List Nat) :
    (s.isAudioComplete = false → s.settled = none →
      (step parse s (Event.closeEvt code reason)).settled =
        some (Outcome.failure (SessionError.unexpectedClose code reason)))
    ∧ (s.isAudioComplete = true →
      (step parse s (Event.closeEvt code reason)).settled = s.settled) := by
  constructor
  · intro hc hs
    show (onClose s code reason).settled = _
    simp [onClose, hc, trySettle, hs]
  · intro hc
    show (onClose s code reason).settled = _
    simp [onClose, hc]

/-- Witness for C8: a close event with code 1006 on the fresh session
rejects with the unexpected-close error carrying that code. -/
theorem close_before_completion_witness :
    (step idParse initState (Event.closeEvt 1006 [])).settled =
      some (Outcome.failure (SessionError.unexpectedClose 1006 [])) :=
  (close_before_completion idParse initState 1006 []).1 rfl rfl

/-- The error thrown by `connect` before any channel is created
(`connect.ts` line 20). -/
inductive ConnError
  | invalidConfiguration
deriving DecidableEq

/-- How the channel-establishment promise of `connect` settles
(`connect.ts` lines 42-58). -/
inductive ConnOutcome
  | resolvedChannel
  | connectionTimeout
  | transportError
deriving DecidableEq

/-- Everything before `outputFormat` in the `initialMessage` template
literal of `connect.ts` lines 24-40. -/
def configHead : String :=
  "\n  Content-Type:application/json; charset=utf-8\r\nPath:speech.config\r\n\r\n\n\n  \x7b\n    \"context\": \x7b\n      \"synthesis\": \x7b\n        \"audio\": \x7b\n          \"metadataoptions\": \x7b\n            \"sentenceBoundaryEnabled\": \"false\",\n            \"wordBoundaryEnabled\": \"true\"\n          \x7d,\n          \"outputFormat\": \""

/-- Everything after `outputFormat` in the same template literal. -/
def configTail : String :=
  "\"\n        \x7d\n      \x7d\n    \x7d\n  \x7d\n"

/-- The one-shot configuration message embedding the output format. -/
def speechConfigMessage (outputFormat : String) : String :=
  configHead ++ outputFormat ++ configTail

/-- A WebSocket created by `connect` whose open signal has not
necessarily fired yet: the pending configuration message, the 10-second
handshake timer, the messages sent so far, and the settlement of the
connect promise. -/
structure PendingConn where
  initialMessage : String
  connTimerArmed : Bool
  sent : List String
  connSettled : Option ConnOutcome
deriving DecidableEq

/-- A just-created channel: configuration message pending, the
10-second timer armed, nothing sent, promise unsettled. -/
def freshConn (s : String) : PendingConn :=
  { initialMessage := speechConfigMessage s, connTimerArmed := true,
    sent := [], connSettled := none }

/-- The function `connect` (`connect.ts` lines 19-47): `!outputFormat` is true for an
absent (`none`) or empty argument and throws before `new WebSocket` runs
— an `.error` result means no channel was created; otherwise the channel
is created with the configuration message pending and the timer armed. -/
def connect (outputFormat : Option String) : Except ConnError PendingConn :=
  match outputFormat with
  | none => .error .invalidConfiguration
  | some s =>
    if s = "" then .error .invalidConfiguration
    else .ok (freshConn s)

/-- The `open` listener (`connect.ts` lines 49-53): clear the timer,
send the configuration message, resolve with the channel. -/
def connOnOpen (c : PendingConn) : PendingConn :=
  { c with connTimerArmed := false,
           sent := c.sent ++ [c.initialMessage],
           connSettled :=
             if c.connSettled.isNone then some .resolvedChannel else c.connSettled }

/-- The `error` listener (`connect.ts` lines 55-58): clear the timer and
reject. -/
def connOnError (c : PendingConn) : PendingConn :=
  { c with connTimerArmed := false,
           connSettled :=
             if c.connSettled.isNone then some .transportError else c.connSettled }

/-- The 10-second handshake timer (`connect.ts` lines 44-47): a cleared
timer never fires; a pending one closes the channel and rejects. -/
def connOnTimeout (c : PendingConn) : PendingConn :=
  if c.connTimerArmed then
    { c with connTimerArmed := false,
             connSettled :=
               if c.connSettled.isNone then some .connectionTimeout else c.connSettled }
  else c

/-- C9: `connect` fails with the invalid-configuration error for every
empty or absent output format, before any channel is created; for every
non-empty output format a channel is created and, upon the open signal,
the configuration message embedding that output format is the one
message sent and the promise resolves with the channel. -/
theorem connect_requires_output_format (of : Option String) :
    ((of = none ∨ of = some "") → connect of = .error .invalidConfiguration)
    ∧ (∀ s, of = some s → s ≠ "" →
      ∃ c, connect of = .ok c ∧
        c.initialMessage = speechConfigMessage s ∧
        c.sent = [] ∧
        (connOnOpen c).sent = [speechConfigMessage s] ∧
        (connOnOpen c).connSettled = some ConnOutcome.resolvedChannel ∧
        (connOnOpen c).connTimerArmed = false) := by
  constructor
  · rintro (rfl | rfl)
    · rfl
    · rfl
  · intro s hof hs
    subst hof
    have hc : connect (some s) = .ok (freshConn s) := by
      simp [connect, hs]
    exact ⟨freshConn s, hc, rfl, rfl, rfl, rfl, rfl⟩

/-- Witness for C9: the empty output format is refused, and the default
output format yields a channel that sends exactly the configuration
message on open. -/
theorem connect_requires_output_format_witness :
    connect (some "") = .error .invalidConfiguration ∧
      ∃ c, connect (some "audio-24khz-96kbitrate-mono-mp3") = .ok c ∧
        c.initialMessage = speechConfigMessage "audio-24khz-96kbitrate-mono-mp3" ∧
        c.sent = [] ∧
        (connOnOpen c).sent = [speechConfigMessage "audio-24khz-96kbitrate-mono-mp3"] ∧
        (connOnOpen c).connSettled = some ConnOutcome.resolvedChannel ∧
        (connOnOpen c).connTimerArmed = false :=
  ⟨(connect_requires_output_format (some "")).1 (Or.inr rfl),
   (connect_requires_output_format
       (some "audio-24khz-96kbitrate-mono-mp3")).2
     "audio-24khz-96kbitrate-mono-mp3" rfl (by decide)⟩

/-- The caller-facing subtitle options (`Omit` of `ParseSubtitleOptions`
without `metadata`): the two fields `generate` supplies defaults for.
Fields of a provided object override the defaults via object spread;
further fields of `ParseSubtitleOptions` (declared in
`src/lib/subtitle.ts`) have no defaults and do not affect this. -/
structure SubtitleOptions where
  splitBy : Option String
  count : Option Nat
deriving DecidableEq

/-- The fully-defaulted subtitle options. -/
structure ResolvedSubtitleOptions where
  splitBy : String
  count : Nat
deriving DecidableEq

/-- The object `\x7b splitBy: "sentence", count: 1, ...options.subtitle \x7d`
of `generate.ts` lines 99-103. -/
def resolveSubtitle : Option SubtitleOptions → ResolvedSubtitleOptions
  | none => { splitBy := "sentence", count := 1 }
  | some o => { splitBy := o.splitBy.getD "sentence", count := o.count.getD 1 }

/-- The options of `generate` (`generate.ts` lines 9-61): every optional
field is `none` when absent (`undefined`) or `null` — the cases the
nullish-coalescing defaults of lines 91-97 apply to. -/
structure GenerateOptions where
  text : String
  voice : Option String
  language : Option String
  outputFormat : Option String
  rate : Option String
  pitch : Option String
  volume : Option String
  subtitle : Option SubtitleOptions
deriving DecidableEq

/-- The option values after defaulting. -/
structure ResolvedOptions where
  voice : String
  language : String
  outputFormat : String
  rate : String
  pitch : String
  volume : String
  subtitle : ResolvedSubtitleOptions
deriving DecidableEq

/-- The defaulting prologue of `generate` (`generate.ts` lines 91-103). -/
def resolveOptions (o : GenerateOptions) : ResolvedOptions :=
  { voice := o.voice.getD "en-US-AvaNeural",
    language := o.language.getD "en-US",
    outputFormat := o.outputFormat.getD "audio-24khz-96kbitrate-mono-mp3",
    rate := o.rate.getD "default",
    pitch := o.pitch.getD "default",
    volume := o.volume.getD "default",
    subtitle := resolveSubtitle o.subtitle }

/-- The call `await connect(outputFormat)` as made by `generate`
(`generate.ts` line 105) with the resolved output format. -/
def generateConnect (o : GenerateOptions) : Except ConnError PendingConn :=
  connect (some (resolveOptions o).outputFormat)

/-- C10: `generate` substitutes the fixed defaults exactly for options
that are null or undefined; an explicit empty-string output format
bypasses the default and makes the connect step fail with the
invalid-configuration (output format required) error. -/
theorem generate_defaults (o : GenerateOptions) :
    (o.voice = none → (resolveOptions o).voice = "en-US-AvaNeural") ∧
    (o.language = none → (resolveOptions o).language = "en-US") ∧
    (o.outputFormat = none →
      (resolveOptions o).outputFormat = "audio-24khz-96kbitrate-mono-mp3") ∧
    (o.rate = none → (resolveOptions o).rate = "default") ∧
    (o.pitch = none → (resolveOptions o).pitch = "default") ∧
    (o.volume = none → (resolveOptions o).volume = "default") ∧
    (o.subtitle = none →
      (resolveOptions o).subtitle = { splitBy := "sentence", count := 1 }) ∧
    (o.outputFormat = some "" →
      generateConnect o = .error .invalidConfiguration) := by
  refine ⟨?_, ?_, ?_, ?_, ?_, ?_, ?_, ?_⟩ <;> intro h <;>
    simp [resolveOptions, resolveSubtitle, generateConnect, connect, h]

/-- A `generate` call providing only the text. -/
def emptyOptions : GenerateOptions :=
  { text := "hello", voice := none, language := none, outputFormat := none,
    rate := none, pitch := none, volume := none, subtitle := none }

/-- Witness for C10: with no options the voice default applies, and an
explicit empty output format makes the connect step fail. -/
theorem generate_defaults_witness :
    (resolveOptions emptyOptions).voice = "en-US-AvaNeural" ∧
      generateConnect { emptyOptions with outputFormat := some "" } =
        .error .invalidConfiguration :=
  ⟨(generate_defaults emptyOptions).1 rfl,
   (generate_defaults { emptyOptions with outputFormat := some "" }).2.2.2.2.2.2.2 rfl⟩

end EdgeTTS
